import Mathlib

/-!
Shallow embedding of the NostrReads event encoding/decoding core
(src/NostrReads.js): book / bookshelf / review event encoders, the
per-event decoders used by the fetch helpers, and the zap-statistics
aggregator.  External capabilities (getPublicKey, getEventHash,
signEvent, Date.now, network fetch) are modelled as opaque parameters;
the functions below translate the tag construction and tag parsing
code literally.
-/

namespace NostrReads

/-- The generic protocol event envelope, as produced by the encoders and
consumed by the decoders.  Field names follow the wire shape used in the
source (`kind`, `created_at`, `tags`, `content`, `pubkey`, `id`, `sig`). -/
structure NostrEvent where
  kind : Nat
  created_at : Nat
  tags : List (List String)
  content : String
  pubkey : String
  id : String
  sig : String
deriving DecidableEq

/-- Models the JavaScript expression `x || ''` on a possibly-undefined
string: an absent value and the empty string both yield the empty string. -/
def jsOrEmpty (o : Option String) : String := o.getD ""

/-- Models JavaScript truthiness `if (x)` for a possibly-undefined string:
true exactly when the value is present and non-empty. -/
def jsTruthy (o : Option String) : Bool :=
  match o with
  | some s => !(s == "")
  | none => false

/-- Models the JavaScript object-key coercion used when a tag's first
element is read: `tag[0]` of an empty tag is `undefined`, which is
coerced to the property key "undefined" by `book.tags[tag[0]]`. -/
def jsKeyString (o : Option String) : String :=
  match o with
  | some s => s
  | none => "undefined"

/-- Input to `createBookEvent` (the `bookData` argument).  `id` and
`title` are the required fields; the optional fields model properties
that may be undefined, and `genres` models the genres array (the source
treats an undefined array and an empty array identically). -/
structure BookData where
  id : String
  title : String
  authors : List String
  isbn : Option String := none
  publishDate : Option String := none
  publisher : Option String := none
  coverUrl : Option String := none
  genres : List String := []
  summary : Option String := none
  description : Option String := none
deriving DecidableEq

/-- Embeds `createBookEvent` (src/NostrReads.js lines 11-51).  The
external signer and clock are passed in as the opaque parameters
`pubkey`, `now`, `eid`, `esig`; the tag construction is translated
literally: the `d`, `title` and `authors` tags always carry the given
values, the `isbn`/`published`/`publisher`/`cover` tags are always
present with `value || ''`, genre tags are appended one per value when
the genres array is non-empty, and a `summary` tag is appended only
when the summary is truthy. -/
def createBookEvent (pubkey : String) (now : Nat) (eid esig : String)
    (bookData : BookData) : NostrEvent :=
  let tags : List (List String) :=
    [["d", bookData.id],
     ["title", bookData.title],
     "authors" :: bookData.authors,
     ["isbn", jsOrEmpty bookData.isbn],
     ["published", jsOrEmpty bookData.publishDate],
     ["publisher", jsOrEmpty bookData.publisher],
     ["cover", jsOrEmpty bookData.coverUrl]]
  let tags :=
    if bookData.genres.length > 0 then
      tags ++ bookData.genres.map (fun genre => ["genre", genre])
    else tags
  let tags :=
    match bookData.summary with
    | some s => if s = "" then tags else tags ++ [["summary", s]]
    | none => tags
  { kind := 30051, created_at := now, tags := tags,
    content := jsOrEmpty bookData.description,
    pubkey := pubkey, id := eid, sig := esig }

/-- One entry of the `books` array given to `createBookshelfEvent`. -/
structure ShelfBookInput where
  eventId : String
  status : String
  progress : Option String := none
  completedDate : Option String := none
deriving DecidableEq

/-- Input to `createBookshelfEvent` (the `shelfData` argument). -/
structure ShelfData where
  id : String
  name : String
  description : Option String := none
  books : List ShelfBookInput := []
  notes : Option String := none
deriving DecidableEq

/-- The `book` tag built for one shelf entry inside
`createBookshelfEvent` (src/NostrReads.js lines 70-84): starts as
`[book, eventId, status]`, then the progress is pushed if truthy, then
the completion date is pushed if truthy. -/
def shelfBookTag (book : ShelfBookInput) : List String :=
  let bookTag := ["book", book.eventId, book.status]
  let bookTag :=
    match book.progress with
    | some p => if p = "" then bookTag else bookTag ++ [p]
    | none => bookTag
  match book.completedDate with
  | some c => if c = "" then bookTag else bookTag ++ [c]
  | none => bookTag

/-- Embeds `createBookshelfEvent` (src/NostrReads.js lines 54-101). -/
def createBookshelfEvent (pubkey : String) (now : Nat) (eid esig : String)
    (shelfData : ShelfData) : NostrEvent :=
  let tags : List (List String) := [["d", shelfData.id], ["name", shelfData.name]]
  let tags :=
    match shelfData.description with
    | some d => if d = "" then tags else tags ++ [["description", d]]
    | none => tags
  let tags :=
    if shelfData.books.length > 0 then
      tags ++ shelfData.books.map shelfBookTag
    else tags
  { kind := 30052, created_at := now, tags := tags,
    content := jsOrEmpty shelfData.notes,
    pubkey := pubkey, id := eid, sig := esig }

/-- Input to `createBookReviewEvent` (the `reviewData` argument).
Ratings flow through this codebase as strings (the example usage passes
the string "5" and the CSV importer passes a CSV cell), and
`rating.toString()` on a string is the string itself; an absent rating
makes that call throw.  So `rating` is modelled as a possibly-undefined
string. -/
structure ReviewData where
  bookEventId : String
  rating : Option String := none
  readDate : Option String := none
  subject : Option String := none
  content : Option String := none
deriving DecidableEq

/-- The runtime error that `createBookReviewEvent` can raise:
`reviewData.rating.toString()` throws a TypeError when `rating` is
undefined.  No code path in the source raises any validation error. -/
inductive JsError where
  | typeError
deriving DecidableEq

/-- Embeds `createBookReviewEvent` (src/NostrReads.js lines 104-137).
The only failure is the TypeError from calling `.toString()` on an
undefined rating; no field is validated. -/
def createBookReviewEvent (pubkey : String) (now : Nat) (eid esig : String)
    (reviewData : ReviewData) : Except JsError NostrEvent :=
  match reviewData.rating with
  | none => Except.error JsError.typeError
  | some rating =>
    let tags : List (List String) := [["e", reviewData.bookEventId], ["rating", rating]]
    let tags :=
      match reviewData.readDate with
      | some r => if r = "" then tags else tags ++ [["read", r]]
      | none => tags
    let tags :=
      match reviewData.subject with
      | some s => if s = "" then tags else tags ++ [["subject", s]]
      | none => tags
    Except.ok { kind := 30053, created_at := now, tags := tags,
                content := jsOrEmpty reviewData.content,
                pubkey := pubkey, id := eid, sig := esig }

/-- The book object produced by the per-event mapping inside
`fetchBooks`.  Optional fields model JavaScript properties that start
out undefined; `genres` models the genres array (undefined until the
first genre tag, and a short genre tag pushes an undefined element, so
elements are possibly-undefined strings); `tags` models the catch-all
object mapping unrecognized keys to the list of their argument lists. -/
structure Book where
  id : String
  pubkey : String
  created_at : Nat
  description : String
  tags : String → List (List String)
  uniqueId : Option String := none
  title : Option String := none
  authors : Option (List String) := none
  isbn : Option String := none
  publishDate : Option String := none
  publisher : Option String := none
  coverUrl : Option String := none
  genres : List (Option String) := []
  summary : Option String := none

/-- One iteration of the tag loop inside `fetchBooks`
(src/NostrReads.js lines 171-198), translated literally from the
if/else-if chain: recognized keys assign (overwriting) the matching
field, `genre` appends, and any other key appends the tag's argument
list to the catch-all mapping under the JavaScript-coerced key. -/
def processBookTag (book : Book) (tag : List String) : Book :=
  if tag.head? = some "d" then { book with uniqueId := tag[1]? }
  else if tag.head? = some "title" then { book with title := tag[1]? }
  else if tag.head? = some "authors" then { book with authors := some (tag.drop 1) }
  else if tag.head? = some "isbn" then { book with isbn := tag[1]? }
  else if tag.head? = some "published" then { book with publishDate := tag[1]? }
  else if tag.head? = some "publisher" then { book with publisher := tag[1]? }
  else if tag.head? = some "cover" then { book with coverUrl := tag[1]? }
  else if tag.head? = some "genre" then { book with genres := book.genres ++ [tag[1]?] }
  else if tag.head? = some "summary" then { book with summary := tag[1]? }
  else
    let key := jsKeyString tag.head?
    { book with tags := fun q => if q = key then book.tags q ++ [tag.drop 1] else book.tags q }

/-- The per-event decoding performed by `fetchBooks`
(src/NostrReads.js lines 160-201): build the base book object from the
event envelope, then fold the tag loop over the event's tags in array
order.  The network fetch around it is an external collaborator. -/
def decodeBook (event : NostrEvent) : Book :=
  let book : Book :=
    { id := event.id, pubkey := event.pubkey, created_at := event.created_at,
      description := event.content, tags := fun _ => [] }
  event.tags.foldl processBookTag book

/-- One shelf entry produced by the `book` tag branch inside
`fetchUserBookshelves`: positional reads `tag[1]`..`tag[4]`, each
possibly undefined. -/
structure ShelfBook where
  eventId : Option String
  status : Option String
  progress : Option String
  completedDate : Option String
deriving DecidableEq

/-- The bookshelf object produced by the per-event mapping inside
`fetchUserBookshelves`.  Note there is no catch-all field: the tag loop
in the source has no else branch, so unrecognized tags leave no trace. -/
structure Bookshelf where
  id : String
  pubkey : String
  created_at : Nat
  notes : String
  books : List ShelfBook := []
  uniqueId : Option String := none
  name : Option String := none
  description : Option String := none
deriving DecidableEq

/-- One iteration of the tag loop inside `fetchUserBookshelves`
(src/NostrReads.js lines 232-249): `d`, `name` and `description` assign
fields, `book` appends a shelf entry read positionally, and every other
tag is ignored (the chain has no else branch). -/
def processShelfTag (shelf : Bookshelf) (tag : List String) : Bookshelf :=
  if tag.head? = some "d" then { shelf with uniqueId := tag[1]? }
  else if tag.head? = some "name" then { shelf with name := tag[1]? }
  else if tag.head? = some "description" then { shelf with description := tag[1]? }
  else if tag.head? = some "book" then
    { shelf with books := shelf.books ++ [⟨tag[1]?, tag[2]?, tag[3]?, tag[4]?⟩] }
  else shelf

/-- The per-event decoding performed by `fetchUserBookshelves`
(src/NostrReads.js lines 221-252). -/
def decodeBookshelf (event : NostrEvent) : Bookshelf :=
  let shelf : Bookshelf :=
    { id := event.id, pubkey := event.pubkey, created_at := event.created_at,
      notes := event.content }
  event.tags.foldl processShelfTag shelf

/-- Numeric value of a list of decimal digit characters, most
significant first. -/
def digitsVal (cs : List Char) : Nat :=
  cs.foldl (fun acc c => 10 * acc + (c.toNat - 48)) 0

/-- Models JavaScript `parseInt(s, 10)`: skip leading whitespace, read
an optional sign, then take the longest prefix of decimal digits,
ignoring anything after it; `none` models the NaN result obtained when
no digit is found. -/
def parseInt10 (s : String) : Option Int :=
  let cs := s.data.dropWhile (fun c => c.isWhitespace)
  match cs with
  | '-' :: rest =>
    let ds := rest.takeWhile (fun c => c.isDigit)
    if ds.isEmpty then none else some (-(digitsVal ds : Int))
  | '+' :: rest =>
    let ds := rest.takeWhile (fun c => c.isDigit)
    if ds.isEmpty then none else some ((digitsVal ds : Int))
  | _ =>
    let ds := cs.takeWhile (fun c => c.isDigit)
    if ds.isEmpty then none else some ((digitsVal ds : Int))

/-- JavaScript number addition restricted to the values that occur in
the aggregator: `none` models NaN, which is absorbing. -/
def jsAdd (a b : Option Int) : Option Int :=
  match a, b with
  | some x, some y => some (x + y)
  | _, _ => none

/-- The amount-tag lookup inside `getZapStats`
(src/NostrReads.js line 431): `receipt.tags.find(tag => tag[0] === 'amount')`,
i.e. the first tag in array order whose key is "amount". -/
def amountTagOf (receipt : NostrEvent) : Option (List String) :=
  receipt.tags.find? (fun tag => tag.head? == some "amount")

/-- One step of the `reduce` inside `getZapStats`
(src/NostrReads.js lines 429-436): if the receipt has an amount tag
whose second element is truthy, add `parseInt` of it to the running
sum (NaN-propagating); otherwise return the sum unchanged. -/
def zapStep (sum : Option Int) (receipt : NostrEvent) : Option Int :=
  match amountTagOf receipt with
  | some amountTag =>
    match amountTag[1]? with
    | some v => if v = "" then sum else jsAdd sum (parseInt10 v)
    | none => sum
  | none => sum

/-- The result object of `getZapStats`.  The count field is named
`zapCount` as in the source; `totalSats` is `none` when the JavaScript
value would be NaN. -/
structure ZapStats where
  totalSats : Option Int
  zapCount : Nat
  uniqueZappers : Nat
deriving DecidableEq

/-- Embeds `getZapStats` (src/NostrReads.js lines 424-446): filter to
kind-9735 receipts, reduce the amount sum from 0, and count distinct
pubkeys with a Set (modelled by deduplicating the pubkey list). -/
def getZapStats (events : List NostrEvent) : ZapStats :=
  let zapReceipts := events.filter (fun e => e.kind == 9735)
  { totalSats := zapReceipts.foldl zapStep (some 0),
    zapCount := zapReceipts.length,
    uniqueZappers := (zapReceipts.map (fun e => e.pubkey)).dedup.length }

/-! Spec-side definitions, used to state the claims about the code. -/

/-- Spec-side: the last tag in array order whose first element is `key`
(the "last one wins" convention of the spec). -/
def lastTagWithKey (key : String) : List (List String) → Option (List String)
  | [] => none
  | t :: rest =>
    match lastTagWithKey key rest with
    | some u => some u
    | none => if t.head? = some key then some t else none

/-- Spec-side: the first tag in array order whose first element is `key`
(the "first one wins" convention of the spec). -/
def firstTagWithKey (key : String) : List (List String) → Option (List String)
  | [] => none
  | t :: rest => if t.head? = some key then some t else firstTagWithKey key rest

/-- Spec-side: the tag keys the book decoder recognizes explicitly;
every other key falls through to the catch-all mapping. -/
def recognizedBookKeys : List String :=
  ["d", "title", "authors", "isbn", "published", "publisher", "cover", "genre", "summary"]

/-- Spec-side normalization of section 4.1: the empty string and an
absent value are the same semantic state, "absent". -/
def strNorm (s : String) : Option String := if s = "" then none else some s

/-- Spec-side normalization of a possibly-absent string: a present but
empty value normalizes to absent. -/
def optNorm (o : Option String) : Option String := o.bind strNorm

/-! Helper lemmas about the decoders and the aggregator. -/

/-- Folding the book tag loop computes, for any field that is assigned
by exactly the tags with a given key, the value of the last such tag. -/
lemma foldl_lastTagWithKey {α : Type} (f : Book → α) (g : List String → α) (key : String)
    (hpos : ∀ b t, t.head? = some key → f (processBookTag b t) = g t)
    (hneg : ∀ b t, t.head? ≠ some key → f (processBookTag b t) = f b) :
    ∀ (l : List (List String)) (b : Book),
      f (l.foldl processBookTag b) = ((lastTagWithKey key l).elim (f b) g) := by
  intro l
  induction l with
  | nil => intro b; rfl
  | cons t rest ih =>
    intro b
    rw [List.foldl_cons, ih]
    by_cases h : t.head? = some key
    · cases hrest : lastTagWithKey key rest with
      | none => simp [lastTagWithKey, hrest, h, Option.elim]; exact hpos b t h
      | some u => simp [lastTagWithKey, hrest, Option.elim]
    · cases hrest : lastTagWithKey key rest with
      | none => simp [lastTagWithKey, hrest, h, Option.elim]; exact hneg b t h
      | some u => simp [lastTagWithKey, hrest, Option.elim]

/-- The find-first amount lookup of the aggregator coincides with the
spec-side first-tag-wins definition. -/
lemma find_amount_eq_firstTagWithKey :
    ∀ l : List (List String),
      l.find? (fun tag => tag.head? == some "amount") = firstTagWithKey "amount" l := by
  intro l
  induction l with
  | nil => rfl
  | cons t rest ih =>
    by_cases h : t.head? = some "amount"
    · rw [List.find?_cons_of_pos _ (by simp [h]), firstTagWithKey, if_pos h]
    · rw [List.find?_cons_of_neg _ (by simp [h]), firstTagWithKey, if_neg h, ih]

/-- A genre tag appends its value to the genres accumulator. -/
lemma processBookTag_genre_pos (b : Book) (t : List String) (h : t.head? = some "genre") :
    (processBookTag b t).genres = b.genres ++ [t[1]?] := by
  simp [processBookTag, h]

/-- Any non-genre tag leaves the genres accumulator unchanged. -/
lemma processBookTag_genre_neg (b : Book) (t : List String) (h : t.head? ≠ some "genre") :
    (processBookTag b t).genres = b.genres := by
  unfold processBookTag
  split_ifs <;> rfl

/-- Folding the book tag loop accumulates the genre values of all
genre tags, in array order. -/
lemma foldl_genres : ∀ (l : List (List String)) (b : Book),
    (l.foldl processBookTag b).genres =
      b.genres ++ (l.filter (fun t => t.head? == some "genre")).map (fun t => t[1]?) := by
  intro l
  induction l with
  | nil => intro b; simp
  | cons t rest ih =>
    intro b
    rw [List.foldl_cons, ih]
    by_cases h : t.head? = some "genre"
    · rw [processBookTag_genre_pos b t h, List.filter_cons_of_pos (by simp [h])]
      simp
    · rw [processBookTag_genre_neg b t h, List.filter_cons_of_neg (by simp [h])]

/-- A tag whose first element is a recognized key leaves the catch-all
mapping unchanged. -/
lemma processBookTag_tags_recognized (b : Book) (t : List String) (x : String)
    (ht : t.head? = some x) (hx : x ∈ recognizedBookKeys) :
    (processBookTag b t).tags = b.tags := by
  simp only [recognizedBookKeys, List.mem_cons, List.mem_singleton, List.not_mem_nil,
    or_false] at hx
  rcases hx with rfl | rfl | rfl | rfl | rfl | rfl | rfl | rfl | rfl <;>
    simp [processBookTag, ht]

/-- A tag whose coerced key is unrecognized is appended to the
catch-all mapping under that key. -/
lemma processBookTag_tags_unrecognized (b : Book) (t : List String) (q : String)
    (h : jsKeyString t.head? ∉ recognizedBookKeys) :
    (processBookTag b t).tags q =
      if q = jsKeyString t.head? then b.tags q ++ [t.drop 1] else b.tags q := by
  have h1 : ¬ t.head? = some "d" := fun he => h (by rw [he]; decide)
  have h2 : ¬ t.head? = some "title" := fun he => h (by rw [he]; decide)
  have h3 : ¬ t.head? = some "authors" := fun he => h (by rw [he]; decide)
  have h4 : ¬ t.head? = some "isbn" := fun he => h (by rw [he]; decide)
  have h5 : ¬ t.head? = some "published" := fun he => h (by rw [he]; decide)
  have h6 : ¬ t.head? = some "publisher" := fun he => h (by rw [he]; decide)
  have h7 : ¬ t.head? = some "cover" := fun he => h (by rw [he]; decide)
  have h8 : ¬ t.head? = some "genre" := fun he => h (by rw [he]; decide)
  have h9 : ¬ t.head? = some "summary" := fun he => h (by rw [he]; decide)
  unfold processBookTag
  rw [if_neg h1, if_neg h2, if_neg h3, if_neg h4, if_neg h5, if_neg h6, if_neg h7,
    if_neg h8, if_neg h9]

/-- Folding the book tag loop collects, at any unrecognized key, the
argument lists of all tags carrying that key, in array order. -/
lemma foldl_catchall (k : String) (hk : k ∉ recognizedBookKeys) :
    ∀ (l : List (List String)) (b : Book),
      (l.foldl processBookTag b).tags k =
        b.tags k ++ (l.filter (fun t => jsKeyString t.head? == k)).map (fun t => t.drop 1) := by
  intro l
  induction l with
  | nil => intro b; simp
  | cons t rest ih =>
    intro b
    rw [List.foldl_cons, ih, List.filter_cons]
    by_cases hrec : jsKeyString t.head? ∈ recognizedBookKeys
    · have hxk : ¬ ((jsKeyString t.head? == k) = true) := by
        simp only [beq_iff_eq]
        intro hcon; rw [hcon] at hrec; exact hk hrec
      rw [if_neg hxk]
      cases ht : t.head? with
      | none => rw [ht] at hrec; exact absurd hrec (by decide)
      | some x => rw [processBookTag_tags_recognized b t x ht (by rw [ht] at hrec; exact hrec)]
    · rw [processBookTag_tags_unrecognized b t k hrec]
      by_cases hkk : jsKeyString t.head? = k
      · rw [if_pos hkk.symm, if_pos (by simp [hkk])]
        simp
      · rw [if_neg (fun he => hkk he.symm), if_neg (by simpa using hkk)]

/-- The tag list built by the book encoder: the seven base tags are
always present (with empty-string placeholders for absent optional
fields), followed by one genre tag per genre, followed by a summary
tag exactly when the summary is present and non-empty. -/
lemma createBookEvent_tags (pk : String) (now : Nat) (i s : String) (B : BookData) :
    (createBookEvent pk now i s B).tags =
      [["d", B.id], ["title", B.title], "authors" :: B.authors,
       ["isbn", jsOrEmpty B.isbn], ["published", jsOrEmpty B.publishDate],
       ["publisher", jsOrEmpty B.publisher], ["cover", jsOrEmpty B.coverUrl]]
      ++ B.genres.map (fun genre => ["genre", genre])
      ++ (match B.summary with
          | some v => if v = "" then [] else [["summary", v]]
          | none => []) := by
  unfold createBookEvent
  by_cases hg : B.genres.length > 0
  · cases hs : B.summary with
    | none => simp [hg]
    | some v => by_cases hv : v = "" <;> simp [hg, hv]
  · have hnil : B.genres = [] := List.length_eq_zero.mp (Nat.eq_zero_of_not_pos hg)
    cases hs : B.summary with
    | none => simp [hnil]
    | some v => by_cases hv : v = "" <;> simp [hnil, hv]

/-- Folding the book tag loop over the seven base tags assigns the
corresponding fields. -/
lemma foldl_baseBookTags (B : BookData) (b : Book) :
    ([["d", B.id], ["title", B.title], "authors" :: B.authors,
      ["isbn", jsOrEmpty B.isbn], ["published", jsOrEmpty B.publishDate],
      ["publisher", jsOrEmpty B.publisher], ["cover", jsOrEmpty B.coverUrl]].foldl
        processBookTag b) =
    { b with uniqueId := some B.id, title := some B.title, authors := some B.authors,
             isbn := some (jsOrEmpty B.isbn), publishDate := some (jsOrEmpty B.publishDate),
             publisher := some (jsOrEmpty B.publisher), coverUrl := some (jsOrEmpty B.coverUrl) } := by
  rfl

/-- Folding the book tag loop over a run of genre tags appends the
genre values in order. -/
lemma foldl_genreTags : ∀ (gs : List String) (b : Book),
    ((gs.map (fun genre => ["genre", genre])).foldl processBookTag b) =
      { b with genres := b.genres ++ gs.map some } := by
  intro gs
  induction gs with
  | nil => intro b; simp
  | cons g rest ih =>
    intro b
    have hstep : processBookTag b ["genre", g] = { b with genres := b.genres ++ [some g] } := rfl
    simp [hstep, ih]

/-- Decoding an encoded book: every field of the decoded book object in
terms of the input book data.  The placeholder tags make the optional
scalar fields come back as present-but-empty strings rather than absent. -/
lemma decodeBook_createBookEvent (pk : String) (now : Nat) (i s : String) (B : BookData) :
    decodeBook (createBookEvent pk now i s B) =
      { id := i, pubkey := pk, created_at := now,
        description := jsOrEmpty B.description, tags := fun _ => [],
        uniqueId := some B.id, title := some B.title, authors := some B.authors,
        isbn := some (jsOrEmpty B.isbn), publishDate := some (jsOrEmpty B.publishDate),
        publisher := some (jsOrEmpty B.publisher), coverUrl := some (jsOrEmpty B.coverUrl),
        genres := B.genres.map some,
        summary := optNorm B.summary } := by
  have htags := createBookEvent_tags pk now i s B
  unfold decodeBook
  rw [htags, List.foldl_append, List.foldl_append, foldl_baseBookTags, foldl_genreTags]
  cases hs : B.summary with
  | none => simp [createBookEvent, optNorm, strNorm, hs]
  | some v =>
    by_cases hv : v = ""
    · simp [createBookEvent, optNorm, strNorm, hs, hv]
    · have hstep : ∀ b : Book,
          ([["summary", v]].foldl processBookTag b) = { b with summary := some v } := fun b => rfl
      simp [createBookEvent, optNorm, strNorm, hs, hv, hstep]

/-- Normalizing the decoder's placeholder image of an optional field
recovers the normalization of the field itself. -/
lemma strNorm_jsOrEmpty (o : Option String) : strNorm (jsOrEmpty o) = optNorm o := by
  cases o with
  | none => rfl
  | some v => by_cases hv : v = "" <;> simp [strNorm, optNorm, jsOrEmpty, hv]

/-- Normalization is idempotent. -/
lemma optNorm_idem (o : Option String) : optNorm (optNorm o) = optNorm o := by
  cases o with
  | none => rfl
  | some v => by_cases hv : v = "" <;> simp [optNorm, strNorm, hv]

/-- Unfolding of the book decoder: the fold of the tag loop over the
base book object built from the event envelope. -/
lemma decodeBook_eq (ev : NostrEvent) :
    decodeBook ev =
      ev.tags.foldl processBookTag
        { id := ev.id, pubkey := ev.pubkey, created_at := ev.created_at,
          description := ev.content, tags := fun _ => [] } := rfl

/-- Unfolding of the bookshelf decoder. -/
lemma decodeBookshelf_eq (ev : NostrEvent) :
    decodeBookshelf ev =
      ev.tags.foldl processShelfTag
        { id := ev.id, pubkey := ev.pubkey, created_at := ev.created_at,
          notes := ev.content } := rfl

/-! Claim theorems. -/

/-- C1: for every valid Book input B whose required fields (localId,
title) are present, decoding the event produced by encoding B
reproduces every field of B, except that any field whose value was the
empty string decodes to absent.  Following section 4.1, "absent" is the
semantic state shared by a missing value and an empty string, computed
by the normalizations strNorm/optNorm: the decoder materializes absent
optional scalars as the placeholder empty string, which normalizes to
absent exactly as the claim states. -/
theorem c1_book_roundtrip (pk : String) (now : Nat) (i s : String) (B : BookData)
    (hid : B.id ≠ "") (htitle : B.title ≠ "") :
    (decodeBook (createBookEvent pk now i s B)).uniqueId = some B.id ∧
    (decodeBook (createBookEvent pk now i s B)).title = some B.title ∧
    (decodeBook (createBookEvent pk now i s B)).authors = some B.authors ∧
    optNorm (decodeBook (createBookEvent pk now i s B)).isbn = optNorm B.isbn ∧
    optNorm (decodeBook (createBookEvent pk now i s B)).publishDate = optNorm B.publishDate ∧
    optNorm (decodeBook (createBookEvent pk now i s B)).publisher = optNorm B.publisher ∧
    optNorm (decodeBook (createBookEvent pk now i s B)).coverUrl = optNorm B.coverUrl ∧
    (decodeBook (createBookEvent pk now i s B)).genres = B.genres.map some ∧
    optNorm (decodeBook (createBookEvent pk now i s B)).summary = optNorm B.summary ∧
    strNorm (decodeBook (createBookEvent pk now i s B)).description = optNorm B.description := by
  rw [decodeBook_createBookEvent]
  refine ⟨rfl, rfl, rfl, ?_, ?_, ?_, ?_, rfl, ?_, ?_⟩
  · exact strNorm_jsOrEmpty B.isbn
  · exact strNorm_jsOrEmpty B.publishDate
  · exact strNorm_jsOrEmpty B.publisher
  · exact strNorm_jsOrEmpty B.coverUrl
  · exact optNorm_idem B.summary
  · exact strNorm_jsOrEmpty B.description

/-- Concrete book input used by the round-trip witness. -/
def c1wB : BookData :=
  { id := "dune", title := "Dune", authors := ["Frank Herbert"],
    isbn := some "9780441172719", publisher := some "",
    genres := ["scifi", "classic"], summary := some "great", description := some "" }

/-- Witness for C1 at a concrete book input. -/
theorem c1_book_roundtrip_witness :
    c1wB.id ≠ "" ∧ c1wB.title ≠ "" ∧
    ((decodeBook (createBookEvent "pk" 5 "eid" "sig" c1wB)).uniqueId = some c1wB.id ∧
     (decodeBook (createBookEvent "pk" 5 "eid" "sig" c1wB)).title = some c1wB.title ∧
     (decodeBook (createBookEvent "pk" 5 "eid" "sig" c1wB)).authors = some c1wB.authors ∧
     optNorm (decodeBook (createBookEvent "pk" 5 "eid" "sig" c1wB)).isbn = optNorm c1wB.isbn ∧
     optNorm (decodeBook (createBookEvent "pk" 5 "eid" "sig" c1wB)).publishDate =
       optNorm c1wB.publishDate ∧
     optNorm (decodeBook (createBookEvent "pk" 5 "eid" "sig" c1wB)).publisher =
       optNorm c1wB.publisher ∧
     optNorm (decodeBook (createBookEvent "pk" 5 "eid" "sig" c1wB)).coverUrl =
       optNorm c1wB.coverUrl ∧
     (decodeBook (createBookEvent "pk" 5 "eid" "sig" c1wB)).genres = c1wB.genres.map some ∧
     optNorm (decodeBook (createBookEvent "pk" 5 "eid" "sig" c1wB)).summary =
       optNorm c1wB.summary ∧
     strNorm (decodeBook (createBookEvent "pk" 5 "eid" "sig" c1wB)).description =
       optNorm c1wB.description) :=
  ⟨by decide, by decide, c1_book_roundtrip "pk" 5 "eid" "sig" c1wB (by decide) (by decide)⟩

/-- C2 is false on the code: encoding a book whose isbn is absent emits
the tag [isbn, ""] instead of omitting it. -/
theorem c2_counterexample :
    ({ id := "b1", title := "T", authors := ["A"] } : BookData).isbn = none ∧
    ["isbn", ""] ∈
      (createBookEvent "pk" 0 "eid" "sig" { id := "b1", title := "T", authors := ["A"] }).tags := by
  decide

/-- C2 amended: the encoder always emits the isbn, published, publisher
and cover tags, as [key, value-or-empty-string], so an absent or empty
field yields [key, ""] rather than an omitted tag; only the summary tag
(and genre tags) are omitted when the field is falsy. -/
theorem c2_single_value_tags_amended (pk : String) (now : Nat) (i s : String) (B : BookData)
    (hsum : jsTruthy B.summary = false) :
    (createBookEvent pk now i s B).tags.take 7 =
      [["d", B.id], ["title", B.title], "authors" :: B.authors,
       ["isbn", jsOrEmpty B.isbn], ["published", jsOrEmpty B.publishDate],
       ["publisher", jsOrEmpty B.publisher], ["cover", jsOrEmpty B.coverUrl]] ∧
    (createBookEvent pk now i s B).tags.filter (fun t => t.head? == some "summary") = [] := by
  rw [createBookEvent_tags]
  constructor
  · rw [List.append_assoc]
    exact List.take_left' rfl
  · have hgen : ∀ gs : List String,
        (gs.map (fun genre => ["genre", genre])).filter
          (fun t => t.head? == some "summary") = [] := by
      intro gs
      induction gs with
      | nil => rfl
      | cons g r ih => simp [ih]
    have hbase : ([["d", B.id], ["title", B.title], "authors" :: B.authors,
        ["isbn", jsOrEmpty B.isbn], ["published", jsOrEmpty B.publishDate],
        ["publisher", jsOrEmpty B.publisher],
        ["cover", jsOrEmpty B.coverUrl]] : List (List String)).filter
          (fun t => t.head? == some "summary") = [] := rfl
    have hsummary : (match B.summary with
        | some v => if v = "" then [] else [["summary", v]]
        | none => ([] : List (List String))) = [] := by
      cases hs : B.summary with
      | none => rfl
      | some v =>
        rw [hs] at hsum
        simp only [jsTruthy, Bool.not_eq_false'] at hsum
        simp [eq_of_beq hsum]
    rw [List.filter_append, List.filter_append, hbase, hgen, hsummary]
    rfl

/-- Concrete book input used by the C2 witness. -/
def c2wB : BookData := { id := "b2", title := "T2", authors := ["A2"] }

/-- Witness for the amended C2 at a concrete book input. -/
theorem c2_single_value_tags_amended_witness :
    jsTruthy c2wB.summary = false ∧
    ((createBookEvent "pk" 0 "eid" "sig" c2wB).tags.take 7 =
      [["d", c2wB.id], ["title", c2wB.title], "authors" :: c2wB.authors,
       ["isbn", jsOrEmpty c2wB.isbn], ["published", jsOrEmpty c2wB.publishDate],
       ["publisher", jsOrEmpty c2wB.publisher], ["cover", jsOrEmpty c2wB.coverUrl]] ∧
     (createBookEvent "pk" 0 "eid" "sig" c2wB).tags.filter
       (fun t => t.head? == some "summary") = []) :=
  ⟨by decide, c2_single_value_tags_amended "pk" 0 "eid" "sig" c2wB (by decide)⟩

/-- C8: the decoder accumulates all genre-tag values into an ordered
sequence preserving tag order, and on the two-genre example yields
[scifi, classic] in that order. -/
theorem c8_genres_accumulate (ev : NostrEvent) :
    (decodeBook ev).genres =
      (ev.tags.filter (fun t => t.head? == some "genre")).map (fun t => t[1]?) ∧
    (decodeBook ⟨30051, 0, [["genre", "scifi"], ["genre", "classic"]],
        "", "pk", "eid", "sig"⟩).genres = [some "scifi", some "classic"] := by
  constructor
  · rw [decodeBook_eq, foldl_genres]
    rfl
  · decide

/-- A d tag assigns the uniqueId field. -/
lemma pbt_uniqueId_pos (b : Book) (t : List String) (h : t.head? = some "d") :
    (processBookTag b t).uniqueId = t[1]? := by simp [processBookTag, h]

/-- A non-d tag leaves the uniqueId field unchanged. -/
lemma pbt_uniqueId_neg (b : Book) (t : List String) (h : t.head? ≠ some "d") :
    (processBookTag b t).uniqueId = b.uniqueId := by
  unfold processBookTag
  rw [if_neg h]
  split_ifs <;> rfl

/-- A title tag assigns the title field. -/
lemma pbt_title_pos (b : Book) (t : List String) (h : t.head? = some "title") :
    (processBookTag b t).title = t[1]? := by simp [processBookTag, h]

/-- A non-title tag leaves the title field unchanged. -/
lemma pbt_title_neg (b : Book) (t : List String) (h : t.head? ≠ some "title") :
    (processBookTag b t).title = b.title := by
  unfold processBookTag
  split_ifs <;> first | rfl | exact absurd (by assumption) h

/-- An authors tag assigns the authors field from the tag's tail. -/
lemma pbt_authors_pos (b : Book) (t : List String) (h : t.head? = some "authors") :
    (processBookTag b t).authors = some (t.drop 1) := by simp [processBookTag, h]

/-- A non-authors tag leaves the authors field unchanged. -/
lemma pbt_authors_neg (b : Book) (t : List String) (h : t.head? ≠ some "authors") :
    (processBookTag b t).authors = b.authors := by
  unfold processBookTag
  split_ifs <;> first | rfl | exact absurd (by assumption) h

/-- An isbn tag assigns the isbn field. -/
lemma pbt_isbn_pos (b : Book) (t : List String) (h : t.head? = some "isbn") :
    (processBookTag b t).isbn = t[1]? := by simp [processBookTag, h]

/-- A non-isbn tag leaves the isbn field unchanged. -/
lemma pbt_isbn_neg (b : Book) (t : List String) (h : t.head? ≠ some "isbn") :
    (processBookTag b t).isbn = b.isbn := by
  unfold processBookTag
  split_ifs <;> first | rfl | exact absurd (by assumption) h

/-- A published tag assigns the publishDate field. -/
lemma pbt_publishDate_pos (b : Book) (t : List String) (h : t.head? = some "published") :
    (processBookTag b t).publishDate = t[1]? := by simp [processBookTag, h]

/-- A non-published tag leaves the publishDate field unchanged. -/
lemma pbt_publishDate_neg (b : Book) (t : List String) (h : t.head? ≠ some "published") :
    (processBookTag b t).publishDate = b.publishDate := by
  unfold processBookTag
  split_ifs <;> first | rfl | exact absurd (by assumption) h

/-- A publisher tag assigns the publisher field. -/
lemma pbt_publisher_pos (b : Book) (t : List String) (h : t.head? = some "publisher") :
    (processBookTag b t).publisher = t[1]? := by simp [processBookTag, h]

/-- A non-publisher tag leaves the publisher field unchanged. -/
lemma pbt_publisher_neg (b : Book) (t : List String) (h : t.head? ≠ some "publisher") :
    (processBookTag b t).publisher = b.publisher := by
  unfold processBookTag
  split_ifs <;> first | rfl | exact absurd (by assumption) h

/-- A cover tag assigns the coverUrl field. -/
lemma pbt_coverUrl_pos (b : Book) (t : List String) (h : t.head? = some "cover") :
    (processBookTag b t).coverUrl = t[1]? := by simp [processBookTag, h]

/-- A non-cover tag leaves the coverUrl field unchanged. -/
lemma pbt_coverUrl_neg (b : Book) (t : List String) (h : t.head? ≠ some "cover") :
    (processBookTag b t).coverUrl = b.coverUrl := by
  unfold processBookTag
  split_ifs <;> first | rfl | exact absurd (by assumption) h

/-- A summary tag assigns the summary field. -/
lemma pbt_summary_pos (b : Book) (t : List String) (h : t.head? = some "summary") :
    (processBookTag b t).summary = t[1]? := by simp [processBookTag, h]

/-- A non-summary tag leaves the summary field unchanged. -/
lemma pbt_summary_neg (b : Book) (t : List String) (h : t.head? ≠ some "summary") :
    (processBookTag b t).summary = b.summary := by
  unfold processBookTag
  split_ifs <;> first | rfl | exact absurd (by assumption) h

/-- C5: for single-value book fields the decoder binds the field to the
value carried by the last tag with that key in array order, while the
aggregator's amount extraction uses the first tag keyed amount; stated
for all inputs via the spec-side last-tag and first-tag definitions,
plus both policies at concrete duplicate-tag inputs. -/
theorem c5_last_wins_first_wins (ev receipt : NostrEvent) :
    (decodeBook ev).uniqueId = (lastTagWithKey "d" ev.tags).elim none (fun t => t[1]?) ∧
    (decodeBook ev).title = (lastTagWithKey "title" ev.tags).elim none (fun t => t[1]?) ∧
    (decodeBook ev).authors =
      (lastTagWithKey "authors" ev.tags).elim none (fun t => some (t.drop 1)) ∧
    (decodeBook ev).isbn = (lastTagWithKey "isbn" ev.tags).elim none (fun t => t[1]?) ∧
    (decodeBook ev).publishDate =
      (lastTagWithKey "published" ev.tags).elim none (fun t => t[1]?) ∧
    (decodeBook ev).publisher =
      (lastTagWithKey "publisher" ev.tags).elim none (fun t => t[1]?) ∧
    (decodeBook ev).coverUrl = (lastTagWithKey "cover" ev.tags).elim none (fun t => t[1]?) ∧
    (decodeBook ev).summary = (lastTagWithKey "summary" ev.tags).elim none (fun t => t[1]?) ∧
    amountTagOf receipt = firstTagWithKey "amount" receipt.tags ∧
    (decodeBook ⟨30051, 0, [["isbn", "A"], ["isbn", "B"]], "", "p", "e", "s"⟩).isbn = some "B" ∧
    amountTagOf ⟨9735, 0, [["amount", "1"], ["amount", "2"]], "", "p", "e", "s"⟩ =
      some ["amount", "1"] := by
  rw [decodeBook_eq]
  exact ⟨foldl_lastTagWithKey (fun b => b.uniqueId) (fun t => t[1]?) "d"
      pbt_uniqueId_pos pbt_uniqueId_neg ev.tags _,
    foldl_lastTagWithKey (fun b => b.title) (fun t => t[1]?) "title"
      pbt_title_pos pbt_title_neg ev.tags _,
    foldl_lastTagWithKey (fun b => b.authors) (fun t => some (t.drop 1)) "authors"
      pbt_authors_pos pbt_authors_neg ev.tags _,
    foldl_lastTagWithKey (fun b => b.isbn) (fun t => t[1]?) "isbn"
      pbt_isbn_pos pbt_isbn_neg ev.tags _,
    foldl_lastTagWithKey (fun b => b.publishDate) (fun t => t[1]?) "published"
      pbt_publishDate_pos pbt_publishDate_neg ev.tags _,
    foldl_lastTagWithKey (fun b => b.publisher) (fun t => t[1]?) "publisher"
      pbt_publisher_pos pbt_publisher_neg ev.tags _,
    foldl_lastTagWithKey (fun b => b.coverUrl) (fun t => t[1]?) "cover"
      pbt_coverUrl_pos pbt_coverUrl_neg ev.tags _,
    foldl_lastTagWithKey (fun b => b.summary) (fun t => t[1]?) "summary"
      pbt_summary_pos pbt_summary_neg ev.tags _,
    find_amount_eq_firstTagWithKey receipt.tags, by decide, by decide⟩

/-- Appending one kind-9735 receipt to the aggregator input performs one
more reduce step on the sum and increments the receipt count. -/
lemma getZapStats_append_receipt (events : List NostrEvent) (r : NostrEvent)
    (hr : r.kind = 9735) :
    (getZapStats (events ++ [r])).totalSats = zapStep ((getZapStats events).totalSats) r ∧
    (getZapStats (events ++ [r])).zapCount = (getZapStats events).zapCount + 1 := by
  have hfil : (events ++ [r]).filter (fun e => e.kind == 9735) =
      events.filter (fun e => e.kind == 9735) ++ [r] := by
    rw [List.filter_append]
    simp [hr]
  constructor <;> simp [getZapStats, hfil, List.foldl_append]

/-- C3 is false on the code: a receipt whose amount value is non-numeric
does not contribute 0 to the total; parseInt yields NaN and the running
sum becomes NaN (modelled as none). -/
theorem c3_counterexample :
    getZapStats [⟨9735, 0, [["amount", "abc"]], "", "A", "", ""⟩] =
      { totalSats := none, zapCount := 1, uniqueZappers := 1 } ∧
    (getZapStats [⟨9735, 0, [["amount", "abc"]], "", "A", "", ""⟩]).totalSats ≠ some 0 := by
  decide

/-- C3 amended: a receipt lacking an amount tag, or whose amount tag has
no second element or an empty second element, contributes 0 to totalSats
while still counting toward the receipt count (field zapCount in the
code); a receipt whose amount value is non-empty but has no parseable
leading integer makes totalSats NaN; on the three-receipt example the
aggregator returns totalSats 1500, count 3, uniqueZappers 2. -/
theorem c3_zap_aggregation_amended (events : List NostrEvent) (r : NostrEvent)
    (hr : r.kind = 9735) :
    (amountTagOf r = none →
      (getZapStats (events ++ [r])).totalSats = (getZapStats events).totalSats ∧
      (getZapStats (events ++ [r])).zapCount = (getZapStats events).zapCount + 1) ∧
    (∀ t, amountTagOf r = some t → (t[1]? = none ∨ t[1]? = some "") →
      (getZapStats (events ++ [r])).totalSats = (getZapStats events).totalSats ∧
      (getZapStats (events ++ [r])).zapCount = (getZapStats events).zapCount + 1) ∧
    (∀ t v, amountTagOf r = some t → t[1]? = some v → v ≠ "" → parseInt10 v = none →
      (getZapStats (events ++ [r])).totalSats = none) ∧
    getZapStats
      [⟨9735, 0, [["amount", "1000"]], "", "A", "", ""⟩,
       ⟨9735, 0, [], "", "A", "", ""⟩,
       ⟨9735, 0, [["amount", "500"]], "", "B", "", ""⟩] =
      { totalSats := some 1500, zapCount := 3, uniqueZappers := 2 } := by
  obtain ⟨ht, hc⟩ := getZapStats_append_receipt events r hr
  refine ⟨?_, ?_, ?_, by decide⟩
  · intro hnone
    exact ⟨by rw [ht]; simp [zapStep, hnone], hc⟩
  · intro t hsome h1
    rcases h1 with h1 | h1
    · exact ⟨by rw [ht]; simp [zapStep, hsome, h1], hc⟩
    · exact ⟨by rw [ht]; simp [zapStep, hsome, h1], hc⟩
  · intro t v hsome h1 hne hparse
    rw [ht]
    simp only [zapStep, hsome, h1, if_neg hne, hparse]
    cases (getZapStats events).totalSats <;> rfl

/-- Witness for the amended C3: appending a receipt with no amount tag
leaves the total unchanged and increments the count. -/
theorem c3_zap_aggregation_amended_witness :
    (getZapStats ([] ++ [⟨9735, 0, [], "", "A", "", ""⟩])).totalSats =
      (getZapStats []).totalSats ∧
    (getZapStats ([] ++ [⟨9735, 0, [], "", "A", "", ""⟩])).zapCount =
      (getZapStats []).zapCount + 1 :=
  (c3_zap_aggregation_amended [] ⟨9735, 0, [], "", "A", "", ""⟩ rfl).1 rfl

/-- C4 is false on the code: a review whose rating is a string that is
not representable as a base-10 integer encodes successfully instead of
failing with a validation error. -/
theorem c4_counterexample :
    createBookReviewEvent "pk" 0 "eid" "sig" { bookEventId := "b", rating := some "abc" } =
      Except.ok ⟨30053, 0, [["e", "b"], ["rating", "abc"]], "", "pk", "eid", "sig"⟩ ∧
    parseInt10 "abc" = none :=
  ⟨rfl, rfl⟩

/-- C4 amended: the review encoder performs no validation at all.  An
absent rating makes it fail with the TypeError raised by calling
toString on undefined (not a validation error); any present rating
string, numeric or not, encodes as the second tag [rating, value]; and
with rating present and readDate falsy the encoder succeeds and emits no
read tag. -/
theorem c4_review_validation_amended (pk : String) (now : Nat) (i s : String) (R : ReviewData) :
    (R.rating = none → createBookReviewEvent pk now i s R = Except.error JsError.typeError) ∧
    (∀ rat, R.rating = some rat → jsTruthy R.readDate = false →
      (createBookReviewEvent pk now i s R).map
        (fun ev => ev.tags.filter (fun t => t.head? == some "read")) = Except.ok [] ∧
      (createBookReviewEvent pk now i s R).map (fun ev => ev.tags[1]?) =
        Except.ok (some ["rating", rat])) := by
  constructor
  · intro h
    simp [createBookReviewEvent, h]
  · intro rat hr hrd
    rcases hd : R.readDate with _ | d
    · rcases hs : R.subject with _ | sub
      · simp only [createBookReviewEvent, hr, hd, hs]
        exact ⟨rfl, rfl⟩
      · by_cases hsub : sub = ""
        · simp [createBookReviewEvent, hr, hd, hs, hsub]
          exact ⟨rfl, rfl⟩
        · simp [createBookReviewEvent, hr, hd, hs, hsub]
          exact ⟨rfl, rfl⟩
    · rw [hd] at hrd
      simp only [jsTruthy, Bool.not_eq_false'] at hrd
      have hdd : d = "" := eq_of_beq hrd
      rcases hs : R.subject with _ | sub
      · simp [createBookReviewEvent, hr, hd, hs, hdd]
        exact ⟨rfl, rfl⟩
      · by_cases hsub : sub = ""
        · simp [createBookReviewEvent, hr, hd, hs, hdd, hsub]
          exact ⟨rfl, rfl⟩
        · simp [createBookReviewEvent, hr, hd, hs, hdd, hsub]
          exact ⟨rfl, rfl⟩

/-- Witness for the amended C4 at concrete review inputs. -/
theorem c4_review_validation_amended_witness :
    createBookReviewEvent "pk" 0 "eid" "sig" { bookEventId := "b" } =
      Except.error JsError.typeError ∧
    ((createBookReviewEvent "pk" 0 "eid" "sig" { bookEventId := "b", rating := some "5" }).map
        (fun ev => ev.tags.filter (fun t => t.head? == some "read")) = Except.ok [] ∧
     (createBookReviewEvent "pk" 0 "eid" "sig" { bookEventId := "b", rating := some "5" }).map
        (fun ev => ev.tags[1]?) = Except.ok (some ["rating", "5"])) :=
  ⟨(c4_review_validation_amended "pk" 0 "eid" "sig" { bookEventId := "b" }).1 rfl,
   (c4_review_validation_amended "pk" 0 "eid" "sig"
     { bookEventId := "b", rating := some "5" }).2 "5" rfl rfl⟩

/-- C6 is false on the code for bookshelf events: the bookshelf decoder
has no catch-all branch, so an unrecognized tag is discarded without a
trace; decoding the same shelf event with and without the tag
[custom, x, y] yields identical results. -/
theorem c6_counterexample :
    decodeBookshelf ⟨30052, 0, [["d", "s1"], ["name", "N"], ["custom", "x", "y"]],
        "", "pk", "eid", "sig"⟩ =
      decodeBookshelf ⟨30052, 0, [["d", "s1"], ["name", "N"]], "", "pk", "eid", "sig"⟩ ∧
    decodeBookshelf ⟨30052, 0, [["d", "s1"], ["name", "N"], ["custom", "x", "y"]],
        "", "pk", "eid", "sig"⟩ =
      { id := "eid", pubkey := "pk", created_at := 0, notes := "",
        books := [], uniqueId := some "s1", name := some "N", description := none } := by
  decide

/-- C6 amended: the book decoder preserves every tag with an
unrecognized key in the catch-all mapping, as the ordered sequence of
argument lists under that key, and a [custom, x, y] tag on a book event
is retrievable under custom as [x, y]; the bookshelf decoder, by
contrast, ignores every tag that is not keyed d, name, description or
book. -/
theorem c6_catchall_amended (ev : NostrEvent) (k : String) (shelf : Bookshelf)
    (t : List String) (hk : k ∉ recognizedBookKeys)
    (h1 : t.head? ≠ some "d") (h2 : t.head? ≠ some "name")
    (h3 : t.head? ≠ some "description") (h4 : t.head? ≠ some "book") :
    (decodeBook ev).tags k =
      (ev.tags.filter (fun u => jsKeyString u.head? == k)).map (fun u => u.drop 1) ∧
    (decodeBook ⟨30051, 0, [["custom", "x", "y"]], "", "pk", "eid", "sig"⟩).tags "custom" =
      [["x", "y"]] ∧
    processShelfTag shelf t = shelf := by
  refine ⟨?_, by decide, ?_⟩
  · rw [decodeBook_eq, foldl_catchall k hk ev.tags _]
    rfl
  · unfold processShelfTag
    rw [if_neg h1, if_neg h2, if_neg h3, if_neg h4]

/-- Witness for the amended C6 at concrete inputs. -/
theorem c6_catchall_amended_witness :
    ("custom" ∉ recognizedBookKeys) ∧
    ((["review", "x"] : List String).head? ≠ some "d") ∧
    ((["review", "x"] : List String).head? ≠ some "name") ∧
    ((["review", "x"] : List String).head? ≠ some "description") ∧
    ((["review", "x"] : List String).head? ≠ some "book") ∧
    ((decodeBook ⟨30051, 0, [["custom", "a", "b"]], "", "p", "e", "s"⟩).tags "custom" =
       ((⟨30051, 0, [["custom", "a", "b"]], "", "p", "e", "s"⟩ : NostrEvent).tags.filter
         (fun u => jsKeyString u.head? == "custom")).map (fun u => u.drop 1) ∧
     (decodeBook ⟨30051, 0, [["custom", "x", "y"]], "", "pk", "eid", "sig"⟩).tags "custom" =
       [["x", "y"]] ∧
     processShelfTag ⟨"i", "p", 0, "n", [], none, none, none⟩ ["review", "x"] =
       ⟨"i", "p", 0, "n", [], none, none, none⟩) :=
  ⟨by decide, by decide, by decide, by decide, by decide,
   c6_catchall_amended ⟨30051, 0, [["custom", "a", "b"]], "", "p", "e", "s"⟩ "custom"
     ⟨"i", "p", 0, "n", [], none, none, none⟩ ["review", "x"]
     (by decide) (by decide) (by decide) (by decide) (by decide)⟩

/-- C7: a book tag with fewer elements than the full arity yields a
shelf entry whose missing trailing positions are absent; in particular
a three-element book tag decodes with progress and completedDate
absent, and the decoder is a total function (it never throws). -/
theorem c7_short_book_tag (shelf : Bookshelf) (t : List String)
    (hk : t.head? = some "book") (hlen : t.length ≤ 3) :
    (processShelfTag shelf t).books = shelf.books ++ [⟨t[1]?, t[2]?, none, none⟩] ∧
    (decodeBookshelf ⟨30052, 0, [["book", "ev1", "reading"]], "", "pk", "eid", "sig"⟩).books =
      [⟨some "ev1", some "reading", none, none⟩] := by
  constructor
  · have h3 : t[3]? = none := by
      rw [List.getElem?_eq_none]
      omega
    have h4 : t[4]? = none := by
      rw [List.getElem?_eq_none]
      omega
    simp [processShelfTag, hk, h3, h4]
  · decide

/-- Witness for C7 at a concrete short book tag. -/
theorem c7_short_book_tag_witness :
    (["book", "e9", "read"] : List String).head? = some "book" ∧
    (["book", "e9", "read"] : List String).length ≤ 3 ∧
    ((processShelfTag ⟨"i", "p", 0, "n", [], none, none, none⟩ ["book", "e9", "read"]).books =
       (⟨"i", "p", 0, "n", [], none, none, none⟩ : Bookshelf).books ++
         [⟨(["book", "e9", "read"] : List String)[1]?,
           (["book", "e9", "read"] : List String)[2]?, none, none⟩] ∧
     (decodeBookshelf ⟨30052, 0, [["book", "ev1", "reading"]], "", "pk", "eid", "sig"⟩).books =
       [⟨some "ev1", some "reading", none, none⟩]) :=
  ⟨by decide, by decide,
   c7_short_book_tag ⟨"i", "p", 0, "n", [], none, none, none⟩ ["book", "e9", "read"]
     (by decide) (by decide)⟩

/-- The aggregator's unique-zapper count is the cardinality of the set
of pubkeys of the kind-9735 receipts. -/
lemma getZapStats_uniqueZappers_eq (events : List NostrEvent) :
    (getZapStats events).uniqueZappers =
      ((events.filter (fun e => e.kind == 9735)).map (fun e => e.pubkey)).toFinset.card := by
  simp only [getZapStats]
  rw [List.card_toFinset]

/-- C9: uniqueZappers equals the cardinality of the set of distinct
author identifiers among the kind-9735 receipts, is invariant under
permutation of the input, and does not grow when a receipt by an
already-counted author is appended. -/
theorem c9_unique_zappers (events events2 : List NostrEvent) (r : NostrEvent)
    (hperm : events.Perm events2) (hr : r.kind = 9735)
    (hmem : r.pubkey ∈ (events.filter (fun e => e.kind == 9735)).map (fun e => e.pubkey)) :
    (getZapStats events).uniqueZappers =
      ((events.filter (fun e => e.kind == 9735)).map (fun e => e.pubkey)).toFinset.card ∧
    (getZapStats events).uniqueZappers = (getZapStats events2).uniqueZappers ∧
    (getZapStats (events ++ [r])).uniqueZappers = (getZapStats events).uniqueZappers := by
  refine ⟨getZapStats_uniqueZappers_eq events, ?_, ?_⟩
  · simp only [getZapStats]
    exact (((hperm.filter _).map _).dedup).length_eq
  · rw [getZapStats_uniqueZappers_eq, getZapStats_uniqueZappers_eq, List.filter_append,
      List.map_append]
    have hfr : ([r].filter (fun e => e.kind == 9735)) = [r] := by simp [hr]
    rw [hfr, List.map_singleton, List.toFinset_append]
    have hsingle : ([r.pubkey] : List String).toFinset = {r.pubkey} := by simp
    rw [hsingle,
      Finset.union_eq_left.mpr (Finset.singleton_subset_iff.mpr (List.mem_toFinset.mpr hmem))]

/-- Witness for C9 at concrete receipt lists. -/
theorem c9_unique_zappers_witness :
    ([⟨9735, 0, [], "", "A", "", ""⟩, ⟨9735, 0, [], "", "B", "", ""⟩] : List NostrEvent).Perm
      [⟨9735, 0, [], "", "B", "", ""⟩, ⟨9735, 0, [], "", "A", "", ""⟩] ∧
    (⟨9735, 1, [], "", "A", "", ""⟩ : NostrEvent).kind = 9735 ∧
    (⟨9735, 1, [], "", "A", "", ""⟩ : NostrEvent).pubkey ∈
      (([⟨9735, 0, [], "", "A", "", ""⟩, ⟨9735, 0, [], "", "B", "", ""⟩] :
        List NostrEvent).filter (fun e => e.kind == 9735)).map (fun e => e.pubkey) ∧
    ((getZapStats [⟨9735, 0, [], "", "A", "", ""⟩, ⟨9735, 0, [], "", "B", "", ""⟩]).uniqueZappers =
       ((([⟨9735, 0, [], "", "A", "", ""⟩, ⟨9735, 0, [], "", "B", "", ""⟩] :
         List NostrEvent).filter (fun e => e.kind == 9735)).map
           (fun e => e.pubkey)).toFinset.card ∧
     (getZapStats [⟨9735, 0, [], "", "A", "", ""⟩, ⟨9735, 0, [], "", "B", "", ""⟩]).uniqueZappers =
       (getZapStats [⟨9735, 0, [], "", "B", "", ""⟩, ⟨9735, 0, [], "", "A", "", ""⟩]).uniqueZappers ∧
     (getZapStats ([⟨9735, 0, [], "", "A", "", ""⟩, ⟨9735, 0, [], "", "B", "", ""⟩] ++
         [⟨9735, 1, [], "", "A", "", ""⟩])).uniqueZappers =
       (getZapStats [⟨9735, 0, [], "", "A", "", ""⟩,
         ⟨9735, 0, [], "", "B", "", ""⟩]).uniqueZappers) :=
  ⟨by decide, by decide, by decide,
   c9_unique_zappers _ _ _ (by decide) (by decide) (by decide)⟩

/-- C10: for a shelf entry whose progress is falsy but whose completion
date is present and non-empty, the encoder pushes the completion date
directly after the status (the progress position), so decoding the
encoded entry yields progress equal to the original completion date and
completedDate absent. -/
theorem c10_completed_date_shift (pk : String) (now : Nat) (i s : String) (sd : ShelfData)
    (e : ShelfBookInput) (c : String)
    (hbooks : sd.books = [e]) (hprog : jsTruthy e.progress = false)
    (hdate : e.completedDate = some c) (hc : c ≠ "") :
    shelfBookTag e = ["book", e.eventId, e.status, c] ∧
    (decodeBookshelf (createBookshelfEvent pk now i s sd)).books =
      [⟨some e.eventId, some e.status, some c, none⟩] := by
  have htag : shelfBookTag e = ["book", e.eventId, e.status, c] := by
    cases hp : e.progress with
    | none => simp [shelfBookTag, hp, hdate, hc]
    | some p =>
      rw [hp] at hprog
      simp only [jsTruthy, Bool.not_eq_false'] at hprog
      simp [shelfBookTag, hp, hdate, hc, eq_of_beq hprog]
  refine ⟨htag, ?_⟩
  rcases hd : sd.description with _ | d
  · simp [createBookshelfEvent, hbooks, hd, htag, decodeBookshelf_eq, processShelfTag]
  · by_cases hdd : d = "" <;>
      simp [createBookshelfEvent, hbooks, hd, hdd, htag, decodeBookshelf_eq, processShelfTag]

/-- Concrete shelf input used by the C10 witness. -/
def c10wE : ShelfBookInput :=
  { eventId := "ev1", status := "read", completedDate := some "2023-05-15" }

/-- Concrete shelf used by the C10 witness. -/
def c10wS : ShelfData := { id := "shelf1", name := "Favs", books := [c10wE] }

/-- Witness for C10 at a concrete shelf entry. -/
theorem c10_completed_date_shift_witness :
    c10wS.books = [c10wE] ∧ jsTruthy c10wE.progress = false ∧
    c10wE.completedDate = some "2023-05-15" ∧ ("2023-05-15" : String) ≠ "" ∧
    (shelfBookTag c10wE = ["book", c10wE.eventId, c10wE.status, "2023-05-15"] ∧
     (decodeBookshelf (createBookshelfEvent "pk" 7 "eid" "sig" c10wS)).books =
       [⟨some c10wE.eventId, some c10wE.status, some "2023-05-15", none⟩]) :=
  ⟨by decide, by decide, by decide, by decide,
   c10_completed_date_shift "pk" 7 "eid" "sig" c10wS c10wE "2023-05-15"
     (by decide) (by decide) (by decide) (by decide)⟩

end NostrReads
